import Mathlib

/-!
Verification development for the KessokuTeaTime api-framework repository.

The core under verification is the superseding-transaction execution
framework in `src/framework/queued_async.rs` and `src/framework/state.rs`,
together with the example transactions in `src/transactions/`.

Machine integers: the repository uses `u8` for the generation counter and
the retry counter.  We embed `u8` values as `Nat` with explicit wrapping
arithmetic modulo 256 exactly where the Rust code can wrap
(`fetch_add`, `+=`, and the subtraction `latest - 1` in `check`), i.e.
release-profile two's-complement wrapping semantics.
-/

namespace ApiFramework

/-- Modelled from the spec: the error half of the framework's result type.
The module file `src/framework/mod.rs` that declares `StateError` and
`StateResult` is not among the sources; its two constructors are the ones
the sources construct and match on (`StateError::Retry`,
`StateError::Cancelled`), matching the spec's error taxonomy in §7 where
`Retry` is the transient signal and `Cancelled` the terminal
cancellation/supersession signal. -/
inductive StateError where
  | Retry
  | Cancelled
deriving DecidableEq, Repr

/-- Modelled from the spec: `StateResult<T> = Result<T, StateError>`,
the result type returned by work closures and by
`QueuedAsyncFramework::run_with_name`. -/
abbrev StateResult (T : Type) := Except StateError T

/-- Embeds `RetryError` from `src/framework/state.rs` (lines 75-81):
the error type of `retry_if_possible`. -/
inductive RetryError where
  | ExceededMaxRetries
deriving DecidableEq, Repr

/-- Embeds `State<T>` from `src/framework/state.rs` (lines 38-50):
the three-outcome control-flow type used by the transactions that do not
go through `StateResult` (notably `download_and_extract_archive`). -/
inductive State (T : Type) where
  | Success (value : T)
  | Retry
  | Stop
deriving DecidableEq, Repr

/-- Embeds `retry_if_possible` from `src/framework/state.rs` (lines 88-97).
The Rust function mutates the `u8` counter in place (`*retry += 1`, which
wraps modulo 256) and compares it against the configured maximum
(`MAX_RETRIES`, a `u8` read from the environment, default 5).  Here the
maximum is passed explicitly and the function returns the decision paired
with the updated counter value. -/
def retry_if_possible (maxRetries retry : Nat) : Except RetryError Unit × Nat :=
  let retry := (retry + 1) % 256
  if retry > maxRetries then (Except.error RetryError.ExceededMaxRetries, retry)
  else (Except.ok (), retry)

/-- Embeds the data of `QueuedAsyncFrameworkContext` from
`src/framework/queued_async.rs` (lines 28-35): the submission's generation
snapshot `index` and its diagnostic `name`.  The `Arc<BusinessHolder>`
reference is represented by passing the holder's current
`latest_payload_index` value explicitly to `check`. -/
structure QueuedAsyncFrameworkContext where
  index : Nat
  name : String
deriving DecidableEq, Repr

/-- Embeds `QueuedAsyncFrameworkContext::check` from
`src/framework/queued_async.rs` (lines 43-54).  The Rust code loads the
holder's `latest_payload_index` (a `u8`) and tests
`self.index < latest_payload_index - 1`; the subtraction is `u8`
arithmetic, so for a loaded value `g` it compares against
`(g + 255) % 256` (which is `g - 1` for `g ≥ 1` and wraps to `255` for
`g = 0`). -/
def QueuedAsyncFrameworkContext.check {T : Type}
    (cx : QueuedAsyncFrameworkContext) (latest : Nat) (returning : T) :
    StateResult T :=
  if cx.index < (latest + 255) % 256 then Except.error StateError.Cancelled
  else Except.ok returning

/-- Embeds `BusinessHolder::latest_payload_index.fetch_add(1, SeqCst)` from
`src/framework/queued_async.rs` (line 114): returns the previous counter
value (the new submission's generation index) and the post-increment
counter (wrapping `u8` arithmetic). -/
def bump_generation (g : Nat) : Nat × Nat :=
  (g % 256, (g + 1) % 256)

/-- An atomic operation on a holder's generation counter: the `fetch_add`
bump performed by every submission (line 114) or the `store(0)` reset
performed on success (lines 129-131 of `src/framework/queued_async.rs`). -/
inductive HolderOp where
  | bump
  | reset
deriving DecidableEq, Repr

/-- The effect of one `HolderOp` on the counter value (wrapping `u8`). -/
def applyOp (g : Nat) : HolderOp → Nat
  | HolderOp.bump => (g + 1) % 256
  | HolderOp.reset => 0

/-- The counter value after a sequence of holder operations. -/
def applyOps (ops : List HolderOp) (g : Nat) : Nat :=
  ops.foldl applyOp g

/-- Result of the retry loop of `run_with_name`
(`src/framework/queued_async.rs`, lines 125-146): the surfaced
`StateResult`, whether the success path executed the `store(0)` reset of
the generation counter, the number of invocations of the work closure,
and the number of calls to `retry_if_possible`. -/
structure LoopResult (R : Type) where
  result : StateResult R
  storedZero : Bool
  invocations : Nat
  budgetChecks : Nat
deriving Repr

/-- Embeds the `loop` of `QueuedAsyncFramework::run_with_name`
(`src/framework/queued_async.rs`, lines 125-146), executed with the
per-key lock held.  One iteration evaluates
`f(context.clone()).await.and_then(|r| context.check(r))`:

* `Ok(result)`  → store 0 into the generation counter, return `Ok`;
* `Err(Retry)`  → consult `retry_if_possible`; on `Ok` loop again, on
  `Err(ExceededMaxRetries)` return `Err(StateError::Retry)`;
* `Err(Cancelled)` → return `Err(StateError::Cancelled)`.

`work n` is the outcome of the `n`-th invocation of the work closure
(the closure itself is fixed; its successive awaited outcomes may differ),
and `latestAt n` is the holder's `latest_payload_index` as loaded by the
`check` applied after the `n`-th invocation (it may change between
iterations through concurrent submissions for the same key).  `fuel`
bounds the number of iterations modelled; `none` means the loop did not
exit within `fuel` iterations. -/
def run_loop {R : Type} (maxRetries : Nat) (cx : QueuedAsyncFrameworkContext)
    (work : Nat → StateResult R) (latestAt : Nat → Nat) :
    Nat → Nat → Nat → Nat → Option (LoopResult R)
  | _, _, _, 0 => none
  | retry, inv, bc, fuel + 1 =>
    match (work inv).bind (fun r => cx.check (latestAt inv) r) with
    | Except.ok r => some ⟨Except.ok r, true, inv + 1, bc⟩
    | Except.error StateError.Retry =>
      match retry_if_possible maxRetries retry with
      | (Except.ok _, retry') =>
        run_loop maxRetries cx work latestAt retry' (inv + 1) (bc + 1) fuel
      | (Except.error _, _) =>
        some ⟨Except.error StateError.Retry, false, inv + 1, bc + 1⟩
    | Except.error StateError.Cancelled =>
      some ⟨Except.error StateError.Cancelled, false, inv + 1, bc⟩

/-- Result of a whole `run_with_name` call in the sequential model:
the surfaced result, the holder's generation counter after the call
returns, and the two counters of `LoopResult`. -/
structure RunResult (R : Type) where
  result : StateResult R
  genAfter : Nat
  invocations : Nat
  budgetChecks : Nat
deriving Repr

/-- Embeds `QueuedAsyncFramework::run_with_name`
(`src/framework/queued_async.rs`, lines 107-147) for one submission with
no concurrent interference on the holder: the submission bumps the
generation (receiving the previous value as its index), acquires the
per-key lock, and drives `run_loop` with the holder's counter constant at
its post-bump value.  `genAfter` is the counter when the call returns:
`0` when the success path executed `store(0)`, otherwise the post-bump
value (nothing else writes it in this interference-free instance). -/
def run_with_name {R : Type} (maxRetries g0 : Nat) (name : String)
    (work : Nat → StateResult R) (fuel : Nat) : Option (RunResult R) :=
  let p := bump_generation g0
  let cx : QueuedAsyncFrameworkContext := ⟨p.1, name⟩
  match run_loop maxRetries cx work (fun _ => p.2) 0 0 0 fuel with
  | none => none
  | some r =>
    some ⟨r.result, if r.storedZero then 0 else p.2, r.invocations, r.budgetChecks⟩

/-- The work closure that yields `Err(StateError::Retry)` on every
invocation. -/
def alwaysRetry (R : Type) : Nat → StateResult R :=
  fun _ => Except.error StateError.Retry

/-!
Interleaving model of the per-key exclusive lock
(`BusinessHolder.lock : tokio::sync::Mutex<()>`,
`src/framework/queued_async.rs` lines 21-25 and 123).

Each task is one `run_with_name` invocation for the same key.  A task in
phase `waiting` has bumped the generation and reached
`holder.lock.lock().await` (line 123); the mutex grants the lock only
when no task holds it (the exclusivity contract of `tokio::sync::Mutex`,
modelled as an atomic acquire-when-free step).  Phase `executing` covers
the whole `loop` body, every retry included: the `_guard` binding is
dropped only when `run_with_name` returns, which is the `release` step
into phase `finished`. -/
inductive Phase where
  | waiting
  | executing
  | finished
deriving DecidableEq, Repr

/-- The shared state for one key: the lock's holder (if any) and the
phase of each task (tasks are named by natural numbers). -/
structure LockSys where
  owner : Option Nat
  phase : Nat → Phase

/-- Initial state: the lock is free and every task is suspended at the
lock-acquisition point. -/
def lockInit : LockSys :=
  ⟨none, fun _ => Phase.waiting⟩

/-- One interleaved step: either the mutex grants the lock to a waiting
task (only possible when it is free), or the task holding the lock
returns from `run_with_name`, dropping the guard. -/
inductive LockStep : LockSys → LockSys → Prop where
  | acquire (s : LockSys) (i : Nat) :
      s.phase i = Phase.waiting → s.owner = none →
      LockStep s ⟨some i, Function.update s.phase i Phase.executing⟩
  | release (s : LockSys) (i : Nat) :
      s.phase i = Phase.executing → s.owner = some i →
      LockStep s ⟨none, Function.update s.phase i Phase.finished⟩

/-- States reachable from `lockInit` by interleaved steps. -/
def LockReachable (s : LockSys) : Prop :=
  Relation.ReflTransGen LockStep lockInit s

/-- The lock invariant: any task executing its work body holds the lock. -/
def LockInv (s : LockSys) : Prop :=
  ∀ i, s.phase i = Phase.executing → s.owner = some i

/-!
Embedding of `fetch_artifacts` from `src/transactions/fetch_artifacts.rs`
(lines 14-80).
-/

/-- The classification of a `reqwest` send error used by
`fetch_artifacts`: `err.is_connect()` and `err.is_timeout()`. -/
structure SendErr where
  is_connect : Bool
  is_timeout : Bool
deriving DecidableEq, Repr

/-- Embeds the fields of `Artifact` from `src/workflow/artifact.rs`
(lines 21-35) that the verified transactions read: `digest` is consumed by
`download_and_extract_archive`; the remaining fields are payload. -/
structure Artifact where
  id : Nat
  name : String
  archive_download_url : String
  digest : Option String
deriving DecidableEq, Repr

/-- Embeds `Artifacts` from `src/workflow/artifact.rs` (lines 14-18):
the deserialized response body of the artifact-listing endpoint. -/
structure Artifacts where
  total_count : Nat
  artifacts : List Artifact
deriving DecidableEq, Repr

/-- Embeds `fetch_artifacts` from `src/transactions/fetch_artifacts.rs`
(lines 14-80) as a function of the network interaction's result:

* `Except.error e` — `send().await` failed (`reqwest` errors only on
  transport-level failures; the HTTP status code of a received response
  is never examined by this function);
* `Except.ok none` — a response was received but
  `response.json::<Artifacts>()` failed to parse its body;
* `Except.ok (some a)` — the body parsed as `a`.

The branch structure mirrors the source: connect/timeout send errors →
`Retry`, other send errors → `Cancelled`; parse failure → `Retry`;
`total_count == 0` → `Cancelled`; with an expected `count`, fewer or more
artifacts than expected → `Cancelled`, an exact match → `Ok(artifacts)`;
without an expected count → `Ok(artifacts)`. -/
def fetch_artifacts (count : Option Nat)
    (response : Except SendErr (Option Artifacts)) :
    StateResult (List Artifact) :=
  match response with
  | Except.error err =>
    if err.is_connect || err.is_timeout then Except.error StateError.Retry
    else Except.error StateError.Cancelled
  | Except.ok none => Except.error StateError.Retry
  | Except.ok (some artifacts) =>
    match artifacts.total_count with
    | 0 => Except.error StateError.Cancelled
    | total_count =>
      match count with
      | some count =>
        if total_count < count then Except.error StateError.Cancelled
        else if total_count > count then Except.error StateError.Cancelled
        else Except.ok artifacts.artifacts
      | none => Except.ok artifacts.artifacts

/-!
Embedding of `download_and_extract_archive` from
`src/transactions/download_and_extract_archive.rs` (lines 18-98).
-/

/-- Embeds the private `Case` enum (lines 18-22): the outcome of the
`extract` helper.  The `anyhow::Error` payload of `Failed` is not
inspected by `cleanup`, so it is dropped. -/
inductive Case where
  | Extracted
  | Failed
  | HashUnmatch
deriving DecidableEq, Repr

/-- Embeds the `extract` helper (lines 49-81) as a function of the
archive extraction's success, the artifact's declared digest, and the
hex encoding of the SHA-256 hash computed over the downloaded bytes
(`hex::encode(sha_hasher.finalize())`).  On successful extraction with a
declared digest, the computed hex is compared against `digest[7..]` (the
digest string minus its 7-character `sha256:` prefix): equality yields
`Extracted`, inequality `HashUnmatch`.  A missing digest is `Extracted`
with a warning; an extraction error yields `Failed`. -/
def extract (archiveOk : Bool) (digest : Option String) (computedHex : String) :
    Case :=
  if archiveOk then
    match digest with
    | some digest =>
      if computedHex = digest.drop 7 then Case.Extracted else Case.HashUnmatch
    | none => Case.Extracted
  else Case.Failed

/-- Embeds the `cleanup` helper (lines 83-98), returning whether
`remove_dir_all` was invoked on the output path: it is on `HashUnmatch`
and `Failed`, not on `Extracted`. -/
def cleanup (c : Case) : Bool :=
  match c with
  | Case.Extracted => false
  | Case.HashUnmatch => true
  | Case.Failed => true

/-- Embeds `download_and_extract_archive` (lines 27-47) as a function of
the download request's outcome (`download_artifact`, a `State` over the
byte stream, here carrying `Unit`), the extraction success, the declared
digest and the computed hash.  Returns the function's `State<()>` result
paired with whether `cleanup` removed the output directory.  Mirroring
the source: on `State::Success(stream)` it runs `extract`, then
`cleanup`, and returns `State::Success(())` unconditionally; `Retry` and
`Stop` from the download are propagated. -/
def download_and_extract_archive (download : State Unit) (archiveOk : Bool)
    (digest : Option String) (computedHex : String) : State Unit × Bool :=
  match download with
  | State.Success _ =>
    let c := extract archiveOk digest computedHex
    (State.Success (), cleanup c)
  | State.Retry => (State.Retry, false)
  | State.Stop => (State.Stop, false)

/-!
Theorems.
-/

/-- Rust's `and_then` on an `Err` input short-circuits. -/
theorem except_bind_error {ε α β : Type} (e : ε) (f : α → Except ε β) :
    (Except.error e : Except ε α).bind f = Except.error e := rfl

/-- Rust's `and_then` on an `Ok` input applies the continuation. -/
theorem except_bind_ok {ε α β : Type} (a : α) (f : α → Except ε β) :
    (Except.ok a : Except ε α).bind f = f a := rfl

/-- The staleness test of `check`, as written in the source. -/
theorem check_eq (cx : QueuedAsyncFrameworkContext) (latest : Nat) {T : Type}
    (v : T) :
    cx.check latest v =
      if cx.index < (latest + 255) % 256 then Except.error StateError.Cancelled
      else Except.ok v := rfl

/-- C3: `check(v)` reads the holder's current generation `g` and returns
`Cancelled` exactly when `self.index < g - 1` under the source's `u8`
arithmetic (the subtrahend is `(g + 255) % 256`), and `Ok(v)` otherwise.
Whenever the comparison does not underflow (`1 ≤ g ≤ 255`), this is
exactly "the current generation is strictly more than one ahead of the
snapshot", and exactly one generation of lag is tolerated: `index = g-1`
or `index ≥ g` is accepted. -/
theorem check_cancels_iff_index_below_wrapped_predecessor
    (cx : QueuedAsyncFrameworkContext) (g : Nat) {T : Type} (v : T) :
    (cx.check g v = Except.error StateError.Cancelled ↔
      cx.index < (g + 255) % 256)
    ∧ (cx.check g v = Except.ok v ↔ ¬ cx.index < (g + 255) % 256)
    ∧ (1 ≤ g → g ≤ 255 →
        ((cx.check g v = Except.error StateError.Cancelled ↔ cx.index + 1 < g)
          ∧ (cx.check g v = Except.ok v ↔
              (cx.index = g - 1 ∨ g ≤ cx.index)))) := by
  rw [check_eq]
  by_cases h : cx.index < (g + 255) % 256
  · rw [if_pos h]
    refine ⟨by simp [h], by simp [h], fun h1 h255 => ⟨by simp; omega, by simp; omega⟩⟩
  · rw [if_neg h]
    refine ⟨by simp [h], by simp [h], fun h1 h255 => ⟨by simp; omega, by simp; omega⟩⟩

/-- Witness for `check_cancels_iff_index_below_wrapped_predecessor` at
`index = 1`, `g = 3`, `v = 42`: one generation beyond tolerance, so the
call is cancelled. -/
theorem check_cancels_iff_witness :
    ((⟨1, "w"⟩ : QueuedAsyncFrameworkContext).check 3 (42 : Nat)
        = Except.error StateError.Cancelled ↔ 1 < (3 + 255) % 256)
    ∧ ((⟨1, "w"⟩ : QueuedAsyncFrameworkContext).check 3 (42 : Nat)
        = Except.ok 42 ↔ ¬ 1 < (3 + 255) % 256)
    ∧ (1 ≤ 3 → 3 ≤ 255 →
        (((⟨1, "w"⟩ : QueuedAsyncFrameworkContext).check 3 (42 : Nat)
            = Except.error StateError.Cancelled ↔ 1 + 1 < 3)
          ∧ ((⟨1, "w"⟩ : QueuedAsyncFrameworkContext).check 3 (42 : Nat)
              = Except.ok 42 ↔ (1 = 3 - 1 ∨ 3 ≤ 1)))) :=
  check_cancels_iff_index_below_wrapped_predecessor ⟨1, "w"⟩ 3 42

/-- C3 counterexample: the claim also asserts that `index ≥ g` is always
accepted; at the reachable holder value `g = 0` (after a success reset)
a context with `index = 3 ≥ 0` is nevertheless cancelled, because the
`u8` subtraction wraps and the comparison is against `255`. -/
theorem check_index_ge_generation_not_always_accepted :
    3 ≥ 0
    ∧ (⟨3, "w"⟩ : QueuedAsyncFrameworkContext).check 0 (42 : Nat)
        = Except.error StateError.Cancelled
    ∧ (⟨3, "w"⟩ : QueuedAsyncFrameworkContext).check 0 (42 : Nat)
        ≠ Except.ok 42 := by
  refine ⟨by omega, rfl, by simp [check_eq]⟩

/-- C4: when the holder's generation is `0` at the moment `check` runs,
the `u8` subtraction `current_generation - 1` wraps to `255`, so every
context with `index < 255` is cancelled even though no newer submission
exists, and only `index = 255` is accepted.  The state is reachable:
after two submissions bump the counter to `2` and the first completes
successfully (resetting it to `0`), the still-live second context
(`index = 1`) is spuriously cancelled by its next `check`. -/
theorem check_underflows_at_generation_zero
    (index : Nat) (nm : String) {T : Type} (v : T) (h : index < 255) :
    (0 + 255) % 256 = 255
    ∧ (⟨index, nm⟩ : QueuedAsyncFrameworkContext).check 0 v
        = Except.error StateError.Cancelled
    ∧ (⟨255, nm⟩ : QueuedAsyncFrameworkContext).check 0 v = Except.ok v
    ∧ applyOps [HolderOp.bump, HolderOp.bump, HolderOp.reset] 0 = 0
    ∧ (⟨1, nm⟩ : QueuedAsyncFrameworkContext).check
        (applyOps [HolderOp.bump, HolderOp.bump, HolderOp.reset] 0) v
        = Except.error StateError.Cancelled := by
  refine ⟨rfl, ?_, rfl, rfl, rfl⟩
  rw [check_eq]
  exact if_pos (by simpa using h)

/-- Witness for `check_underflows_at_generation_zero` at `index = 1`. -/
theorem check_underflows_witness :
    (0 + 255) % 256 = 255
    ∧ (⟨1, "w"⟩ : QueuedAsyncFrameworkContext).check 0 (42 : Nat)
        = Except.error StateError.Cancelled
    ∧ (⟨255, "w"⟩ : QueuedAsyncFrameworkContext).check 0 (42 : Nat)
        = Except.ok 42
    ∧ applyOps [HolderOp.bump, HolderOp.bump, HolderOp.reset] 0 = 0
    ∧ (⟨1, "w"⟩ : QueuedAsyncFrameworkContext).check
        (applyOps [HolderOp.bump, HolderOp.bump, HolderOp.reset] 0) (42 : Nat)
        = Except.error StateError.Cancelled :=
  check_underflows_at_generation_zero 1 "w" 42 (by omega)

/-- With an always-`Retry` work closure and a retry counter at `retry ≤
maxRetries ≤ 254`, the loop performs exactly `maxRetries + 1 - retry`
further invocations, consulting the budget after each, and exits with
`Err(StateError::Retry)`. -/
theorem run_loop_alwaysRetry_exhausts {R : Type} (maxRetries : Nat)
    (hm : maxRetries ≤ 254) (cx : QueuedAsyncFrameworkContext)
    (latestAt : Nat → Nat) :
    ∀ fuel retry inv bc, retry ≤ maxRetries → maxRetries + 2 - retry ≤ fuel →
      run_loop maxRetries cx (alwaysRetry R) latestAt retry inv bc fuel
        = some ⟨Except.error StateError.Retry, false,
                inv + (maxRetries + 1 - retry), bc + (maxRetries + 1 - retry)⟩ := by
  intro fuel
  induction fuel with
  | zero => intro retry inv bc hr hf; omega
  | succ fuel ih =>
    intro retry inv bc hr hf
    have hmod : (retry + 1) % 256 = retry + 1 := Nat.mod_eq_of_lt (by omega)
    simp only [run_loop, alwaysRetry, except_bind_error, retry_if_possible, hmod]
    by_cases hcase : retry = maxRetries
    · subst hcase
      rw [if_pos (by omega)]
      simp only [Option.some.injEq, LoopResult.mk.injEq]
      refine ⟨trivial, trivial, by omega, by omega⟩
    · rw [if_neg (by omega)]
      show run_loop maxRetries cx (alwaysRetry R) latestAt (retry + 1) (inv + 1)
            (bc + 1) fuel = _
      rw [ih (retry + 1) (inv + 1) (bc + 1) (by omega) (by omega)]
      simp only [Option.some.injEq, LoopResult.mk.injEq]
      refine ⟨trivial, trivial, by omega, by omega⟩

/-- With `maxRetries = 255` the `u8` retry counter wraps before ever
exceeding the maximum, so an always-`Retry` work closure keeps the loop
running forever: no fuel bound suffices for it to exit. -/
theorem run_loop_alwaysRetry_max255_diverges {R : Type}
    (cx : QueuedAsyncFrameworkContext) (latestAt : Nat → Nat) :
    ∀ fuel retry inv bc,
      run_loop 255 cx (alwaysRetry R) latestAt retry inv bc fuel = none := by
  intro fuel
  induction fuel with
  | zero => intro retry inv bc; rfl
  | succ fuel ih =>
    intro retry inv bc
    have hmod : (retry + 1) % 256 < 256 := Nat.mod_lt _ (by omega)
    simp only [run_loop, alwaysRetry, except_bind_error, retry_if_possible]
    rw [if_neg (by omega)]
    exact ih _ _ _

/-- C1 counterexample: with the default budget `MAX_RETRIES = 5` and a
work closure that returns `Retry` on every attempt, `run` surfaces
`Err(StateError::Retry)` — the very constructor a work closure uses to
request a retry — not a dedicated `ExceededMaxRetries` value.  The
`RetryError::ExceededMaxRetries` produced internally by
`retry_if_possible` (second conjunct) is caught by the loop at
`src/framework/queued_async.rs` line 136-139 and replaced by
`StateError::Retry`; `run`'s error type contains no
`ExceededMaxRetries`. -/
theorem run_exhaustion_surfaces_retry_not_exceeded_max_retries :
    run_with_name 5 0 "transaction" (alwaysRetry Nat) 10
      = some ⟨Except.error StateError.Retry, 1, 6, 6⟩
    ∧ (retry_if_possible 5 5).1 = Except.error RetryError.ExceededMaxRetries
    ∧ Except.error StateError.Retry
        ≠ (Except.error StateError.Cancelled : StateResult Nat) := by
  refine ⟨rfl, rfl, by simp⟩

/-- C1 amended: once the retry budget is exhausted (`retry_if_possible`
returns the terminal `RetryError::ExceededMaxRetries`, third conjunct),
`run` returns `Err(StateError::Retry)`; that value is still distinct
from `Cancelled` (second conjunct), so a caller of `run` can distinguish
budget exhaustion from cancellation/supersession.  Stated for every
budget that can actually be exhausted (`maxRetries ≤ 254`; see the C2
theorems for the wrapping boundary at 255). -/
theorem run_exhaustion_error_distinct_from_cancelled
    (maxRetries g0 fuel : Nat) (nm : String) {T : Type}
    (hm : maxRetries ≤ 254) (hf : maxRetries + 2 ≤ fuel) :
    run_with_name maxRetries g0 nm (alwaysRetry T) fuel
      = some ⟨Except.error StateError.Retry, (g0 + 1) % 256,
              maxRetries + 1, maxRetries + 1⟩
    ∧ StateError.Retry ≠ StateError.Cancelled
    ∧ (retry_if_possible maxRetries maxRetries).1
        = Except.error RetryError.ExceededMaxRetries := by
  refine ⟨?_, by simp, ?_⟩
  · simp only [run_with_name, bump_generation]
    rw [run_loop_alwaysRetry_exhausts maxRetries hm _ _ fuel 0 0 0 (by omega)
          (by omega)]
    simp
  · have hmod : (maxRetries + 1) % 256 = maxRetries + 1 :=
      Nat.mod_eq_of_lt (by omega)
    simp only [retry_if_possible, hmod]
    rw [if_pos (by omega)]

/-- Witness for `run_exhaustion_error_distinct_from_cancelled` at
`maxRetries = 5`, the process default. -/
theorem run_exhaustion_error_distinct_witness :
    run_with_name 5 3 "transaction" (alwaysRetry Nat) 10
      = some ⟨Except.error StateError.Retry, (3 + 1) % 256, 5 + 1, 5 + 1⟩
    ∧ StateError.Retry ≠ StateError.Cancelled
    ∧ (retry_if_possible 5 5).1 = Except.error RetryError.ExceededMaxRetries :=
  run_exhaustion_error_distinct_from_cancelled 5 3 10 "transaction"
    (by omega) (by omega)

/-- C2 amended: for every budget `maxRetries ≤ 254`, a `run` invocation
whose work closure returns `Retry` on every attempt invokes the closure
exactly `maxRetries + 1` times (the initial attempt plus `maxRetries`
retries) — never fewer, never more — and then terminates with an error.
The restriction to `maxRetries ≤ 254` is forced: at the configurable
maximum `255` the `u8` retry counter wraps and the loop never exits (see
the counterexample theorem). -/
theorem run_alwaysRetry_invokes_work_max_plus_one_times
    (maxRetries g0 fuel : Nat) (nm : String) {T : Type}
    (hm : maxRetries ≤ 254) (hf : maxRetries + 2 ≤ fuel) :
    (run_with_name maxRetries g0 nm (alwaysRetry T) fuel).map
        (fun r => r.invocations) = some (maxRetries + 1)
    ∧ (run_with_name maxRetries g0 nm (alwaysRetry T) fuel).map
        (fun r => r.result) = some (Except.error StateError.Retry) := by
  simp only [run_with_name, bump_generation]
  rw [run_loop_alwaysRetry_exhausts maxRetries hm _ _ fuel 0 0 0 (by omega)
        (by omega)]
  simp

/-- Witness for `run_alwaysRetry_invokes_work_max_plus_one_times` at the
scenario of the claim: `max = 3` gives exactly `4` invocations. -/
theorem run_alwaysRetry_four_invocations_witness :
    (run_with_name 3 0 "transaction" (alwaysRetry Nat) 5).map
        (fun r => r.invocations) = some (3 + 1)
    ∧ (run_with_name 3 0 "transaction" (alwaysRetry Nat) 5).map
        (fun r => r.result) = some (Except.error StateError.Retry) :=
  run_alwaysRetry_invokes_work_max_plus_one_times 3 0 5 "transaction"
    (by omega) (by omega)

/-- C2 counterexample: with the configured maximum equal to `255` (a
value `MAX_RETRIES` admits, being a `u8`), an always-`Retry` run does
not stop after `255 + 1 = 256` invocations: even `600` loop iterations
do not make it exit (first conjunct; the `u8` counter wraps, third
conjunct: at `retry = 255` the increment wraps to `0` and
`retry_if_possible` allows another attempt), so the work closure is
invoked strictly more than `max + 1` times and `run` never returns. -/
theorem run_alwaysRetry_max255_never_terminates :
    run_with_name 255 0 "transaction" (alwaysRetry Nat) 600 = none
    ∧ 255 + 2 ≤ 600
    ∧ retry_if_possible 255 255 = (Except.ok (), 0) := by
  refine ⟨?_, by omega, rfl⟩
  simp only [run_with_name, bump_generation]
  rw [run_loop_alwaysRetry_max255_diverges _ _ 600 0 0 0]

/-- C6: when the work closure returns `Success(v)` but the submission
has gone stale meanwhile (the holder's generation read by the
post-invocation `check` makes `index < (g + 255) % 256` hold), the loop
exits at once with `Err(StateError::Cancelled)`: the generation counter
is not reset (`storedZero = false`), no retry budget is consulted, and
the stale success is indistinguishable from a cancellation.  `latestAt`
models the holder's counter as mutated by concurrent submissions;
`run_with_name` surfaces this `LoopResult.result` unchanged. -/
theorem stale_success_treated_as_cancelled (maxRetries : Nat)
    (cx : QueuedAsyncFrameworkContext) (latestAt : Nat → Nat) {T : Type}
    (v : T) (work : Nat → StateResult T) (fuel : Nat)
    (hw : work 0 = Except.ok v)
    (hstale : cx.index < (latestAt 0 + 255) % 256) (hf : 1 ≤ fuel) :
    run_loop maxRetries cx work latestAt 0 0 0 fuel
      = some ⟨Except.error StateError.Cancelled, false, 1, 0⟩ := by
  obtain ⟨fuel, rfl⟩ : ∃ f, fuel = f + 1 := ⟨fuel - 1, by omega⟩
  simp only [run_loop, hw, except_bind_ok, check_eq, if_pos hstale]

/-- Witness for `stale_success_treated_as_cancelled`: a submission with
index `0` whose holder has meanwhile advanced to generation `2`. -/
theorem stale_success_witness :
    run_loop 5 ⟨0, "w"⟩ (fun _ => (Except.ok 7 : StateResult Nat))
        (fun _ => 2) 0 0 0 1
      = some ⟨Except.error StateError.Cancelled, false, 1, 0⟩ :=
  stale_success_treated_as_cancelled 5 ⟨0, "w"⟩ (fun _ => 2) 7 _ 1 rfl
    (by decide) (by omega)

/-- If the retry loop exits with `Ok`, it executed the success branch,
which stores `0` into the generation counter. -/
theorem run_loop_success_stores_zero {R : Type} (maxRetries : Nat)
    (cx : QueuedAsyncFrameworkContext) (work : Nat → StateResult R)
    (latestAt : Nat → Nat) :
    ∀ fuel retry inv bc (lr : LoopResult R) (v : R),
      run_loop maxRetries cx work latestAt retry inv bc fuel = some lr →
      lr.result = Except.ok v → lr.storedZero = true := by
  intro fuel
  induction fuel with
  | zero => intro retry inv bc lr v hrun; cases hrun
  | succ fuel ih =>
    intro retry inv bc lr v hrun hok
    simp only [run_loop] at hrun
    split at hrun
    · cases hrun; rfl
    · split at hrun
      · exact ih _ _ _ _ v hrun hok
      · cases hrun; simp at hok
    · cases hrun; simp at hok

/-- C7 amended: after a `run` call returns `Success`, the key's
generation counter is exactly `0` and the next submission for the key
(with no interleaving) receives generation index `0` (second conjunct:
`fetch_add` on a counter at `0` returns `0`).  The `store(0)` reset is
only executed on the success path; however, the counter can also *become*
`0` without any success, through a `bump` wrapping from `255` — the third
conjunct states that a bump yields `0` exactly from `255`, the fourth
that a reset always yields `0`. -/
theorem success_resets_generation_to_zero (maxRetries g0 fuel : Nat)
    (nm : String) {T : Type} (work : Nat → StateResult T)
    (r : RunResult T) (v : T)
    (hrun : run_with_name maxRetries g0 nm work fuel = some r)
    (hok : r.result = Except.ok v) :
    r.genAfter = 0
    ∧ (bump_generation 0).1 = 0
    ∧ (∀ g, g ≤ 255 → (applyOp g HolderOp.bump = 0 ↔ g = 255))
    ∧ (∀ g, applyOp g HolderOp.reset = 0) := by
  refine ⟨?_, rfl, ?_, fun g => rfl⟩
  · simp only [run_with_name] at hrun
    split at hrun
    · cases hrun
    · rename_i lr hloop
      cases hrun
      have hz := run_loop_success_stores_zero maxRetries _ work _ fuel 0 0 0
        lr v hloop hok
      simp [hz]
  · intro g hg
    simp only [applyOp]
    omega

/-- Witness for `success_resets_generation_to_zero`: a first-attempt
success at generation `7`. -/
theorem success_resets_generation_witness :
    (⟨Except.ok 9, 0, 1, 0⟩ : RunResult Nat).genAfter = 0
    ∧ (bump_generation 0).1 = 0
    ∧ (∀ g, g ≤ 255 → (applyOp g HolderOp.bump = 0 ↔ g = 255))
    ∧ (∀ g, applyOp g HolderOp.reset = 0) :=
  success_resets_generation_to_zero 5 7 1 "w"
    (fun _ => (Except.ok 9 : StateResult Nat)) ⟨Except.ok 9, 0, 1, 0⟩ 9 rfl rfl

set_option maxRecDepth 4000 in
/-- C7 counterexample: the counter also reaches `0` with no success
involved: `256` consecutive submission bumps (and no reset) wrap the
`u8` counter back to `0`, so "only ever reset to 0 by a successful
completion" does not hold of the counter's value. -/
theorem generation_zero_without_success :
    applyOps (List.replicate 256 HolderOp.bump) 0 = 0
    ∧ HolderOp.reset ∉ List.replicate 256 HolderOp.bump := by
  refine ⟨by decide, by decide⟩

/-- C8: a work body whose first attempt yields `Cancelled` — directly,
or because its returned value is judged stale by the framework's `check`
(the hypothesis covers both, being about the composed
`f(context).and_then(|r| context.check(r))`) — makes the loop return
`Err(Cancelled)` immediately: one invocation, zero consultations of
`retry_if_possible` (the budget is consulted only on the `Retry`
outcome).  The second conjunct restates this through `run_with_name` for
a directly-cancelling work body: the surfaced result is `Err(Cancelled)`
after exactly one invocation and zero budget checks, and the generation
counter keeps its post-bump value. -/
theorem cancelled_consumes_no_retry_budget (maxRetries g0 fuel : Nat)
    (nm : String) (cx : QueuedAsyncFrameworkContext) (latestAt : Nat → Nat)
    {T : Type} (work : Nat → StateResult T) (hf : 1 ≤ fuel) :
    ((work 0).bind (fun r => cx.check (latestAt 0) r)
        = Except.error StateError.Cancelled →
      run_loop maxRetries cx work latestAt 0 0 0 fuel
        = some ⟨Except.error StateError.Cancelled, false, 1, 0⟩)
    ∧ (work 0 = Except.error StateError.Cancelled →
      run_with_name maxRetries g0 nm work fuel
        = some ⟨Except.error StateError.Cancelled, (g0 + 1) % 256, 1, 0⟩) := by
  obtain ⟨fuel, rfl⟩ : ∃ f, fuel = f + 1 := ⟨fuel - 1, by omega⟩
  constructor
  · intro hc
    simp only [run_loop, hc]
  · intro hw
    simp only [run_with_name, bump_generation, run_loop, hw, except_bind_error]
    simp

/-- Witness for `cancelled_consumes_no_retry_budget` with an
immediately-cancelling work body. -/
theorem cancelled_consumes_no_budget_witness :
    ((Except.error StateError.Cancelled : StateResult Nat).bind
        (fun r => (⟨7, "w"⟩ : QueuedAsyncFrameworkContext).check 8 r)
        = Except.error StateError.Cancelled →
      run_loop 5 ⟨7, "w"⟩ (fun _ => (Except.error StateError.Cancelled :
          StateResult Nat)) (fun _ => 8) 0 0 0 9
        = some ⟨Except.error StateError.Cancelled, false, 1, 0⟩)
    ∧ ((fun _ => (Except.error StateError.Cancelled : StateResult Nat)) 0
        = Except.error StateError.Cancelled →
      run_with_name 5 7 "w" (fun _ => (Except.error StateError.Cancelled :
          StateResult Nat)) 9
        = some ⟨Except.error StateError.Cancelled, (7 + 1) % 256, 1, 0⟩) :=
  cancelled_consumes_no_retry_budget 5 7 9 "w" ⟨7, "w"⟩ (fun _ => 8)
    (fun _ => Except.error StateError.Cancelled) (by omega)

/-- The lock invariant holds initially: nobody is executing. -/
theorem lockInv_init : LockInv lockInit := by
  intro i h
  exact Phase.noConfusion h

/-- The lock invariant is preserved by every interleaved step. -/
theorem lockInv_step {s t : LockSys} (hst : LockStep s t) (hinv : LockInv s) :
    LockInv t := by
  cases hst with
  | acquire i hw ho =>
    intro j hj
    have hj' : Function.update s.phase i Phase.executing j = Phase.executing := hj
    show some i = some j
    by_cases hij : j = i
    · subst hij; rfl
    · rw [Function.update_noteq hij] at hj'
      have h1 := hinv j hj'
      rw [ho] at h1
      cases h1
  | release i he ho =>
    intro j hj
    have hj' : Function.update s.phase i Phase.finished j = Phase.executing := hj
    show (none : Option Nat) = some j
    by_cases hij : j = i
    · subst hij
      rw [Function.update_same] at hj'
      exact Phase.noConfusion hj'
    · rw [Function.update_noteq hij] at hj'
      have h1 := hinv j hj'
      rw [ho] at h1
      exact absurd (Option.some.inj h1).symm hij

/-- Every reachable state satisfies the lock invariant. -/
theorem lockInv_reachable {s : LockSys} (hs : LockReachable s) : LockInv s := by
  induction hs with
  | refl => exact lockInv_init
  | tail hab hbc ih => exact lockInv_step hbc ih

/-- C5: in every reachable interleaving of `run` invocations for one
key, a task executing its work body holds the key's exclusive lock, and
no two tasks execute their work bodies concurrently — the lock is held
for the whole retry loop (phase `executing` spans it) and overlapping
calls serialize. -/
theorem run_bodies_mutually_exclusive (s : LockSys) (i j : Nat)
    (hs : LockReachable s) (hi : s.phase i = Phase.executing)
    (hj : s.phase j = Phase.executing) :
    s.owner = some i ∧ i = j := by
  have hinv := lockInv_reachable hs
  have h1 := hinv i hi
  have h2 := hinv j hj
  refine ⟨h1, ?_⟩
  rw [h1] at h2
  exact Option.some.inj h2

/-- Witness for `run_bodies_mutually_exclusive`: the state in which task
`0` has just been granted the lock is reachable in one step, and the
theorem instantiated there yields that task `0` owns the lock. -/
theorem run_bodies_mutually_exclusive_witness :
    (⟨some 0, Function.update lockInit.phase 0 Phase.executing⟩ :
        LockSys).owner = some 0
    ∧ (0 : Nat) = 0 :=
  run_bodies_mutually_exclusive
    ⟨some 0, Function.update lockInit.phase 0 Phase.executing⟩ 0 0
    (Relation.ReflTransGen.single (LockStep.acquire lockInit 0 rfl rfl))
    (by simp) (by simp)

/-- C9 counterexample: a received response whose body fails to parse as
an artifact list (for instance a non-2xx status page: the function never
examines the HTTP status, only whether the body deserializes) is a
failure that is neither a connect nor a timeout error, yet
`fetch_artifacts` maps it to `Retry`, not `Cancelled`. -/
theorem fetch_artifacts_parse_failure_retries :
    fetch_artifacts (some 1) (Except.ok none) = Except.error StateError.Retry
    ∧ Except.error StateError.Retry
        ≠ (Except.error StateError.Cancelled : StateResult (List Artifact)) := by
  refine ⟨rfl, by simp⟩

/-- C9 amended: the outcome mapping of `fetch_artifacts`: connect and
timeout errors from sending give `Retry`; every other send failure gives
`Cancelled`; a response whose body fails to parse gives `Retry` (the
HTTP status itself is never examined, so "2xx" enters only through
whether the body parses as an artifact list); a parsed body with zero
artifacts gives `Cancelled`; with an expected count, a mismatch gives
`Cancelled` and an exact match gives `Success` with the artifact list;
with no expected count any nonzero total gives `Success`. -/
theorem fetch_artifacts_outcome_mapping (co : Option Nat) (c : Nat)
    (e : SendErr) (a : Artifacts) :
    (e.is_connect = true ∨ e.is_timeout = true →
      fetch_artifacts co (Except.error e) = Except.error StateError.Retry)
    ∧ (e.is_connect = false → e.is_timeout = false →
      fetch_artifacts co (Except.error e) = Except.error StateError.Cancelled)
    ∧ fetch_artifacts co (Except.ok none) = Except.error StateError.Retry
    ∧ (a.total_count = 0 →
      fetch_artifacts co (Except.ok (some a)) = Except.error StateError.Cancelled)
    ∧ (a.total_count ≠ 0 →
      fetch_artifacts none (Except.ok (some a)) = Except.ok a.artifacts)
    ∧ (a.total_count ≠ 0 → a.total_count = c →
      fetch_artifacts (some c) (Except.ok (some a)) = Except.ok a.artifacts)
    ∧ (a.total_count ≠ 0 → a.total_count ≠ c →
      fetch_artifacts (some c) (Except.ok (some a))
        = Except.error StateError.Cancelled) := by
  obtain ⟨tc, arts⟩ := a
  refine ⟨?_, ?_, rfl, ?_, ?_, ?_, ?_⟩
  · intro h
    rcases h with h | h <;>
      simp [fetch_artifacts, h]
  · intro h1 h2
    simp [fetch_artifacts, h1, h2]
  · intro h
    simp only at h
    subst h
    rfl
  · intro h
    simp only at h
    obtain ⟨tc, rfl⟩ : ∃ t, tc = t + 1 := ⟨tc - 1, by omega⟩
    rfl
  · intro h hc
    simp only at h hc
    obtain ⟨tc, rfl⟩ : ∃ t, tc = t + 1 := ⟨tc - 1, by omega⟩
    simp only [fetch_artifacts]
    rw [if_neg (by omega), if_neg (by omega)]
  · intro h hc
    simp only at h hc
    obtain ⟨tc, rfl⟩ : ∃ t, tc = t + 1 := ⟨tc - 1, by omega⟩
    simp only [fetch_artifacts]
    by_cases hlt : tc + 1 < c
    · rw [if_pos hlt]
    · rw [if_neg hlt, if_pos (by omega)]

/-- Witness for `fetch_artifacts_outcome_mapping` at a timeout error and
a parsed body of three artifacts against an expected count of three. -/
theorem fetch_artifacts_outcome_mapping_witness :
    ((⟨false, true⟩ : SendErr).is_connect = true
        ∨ (⟨false, true⟩ : SendErr).is_timeout = true →
      fetch_artifacts (some 3) (Except.error ⟨false, true⟩)
        = Except.error StateError.Retry)
    ∧ ((⟨false, true⟩ : SendErr).is_connect = false →
        (⟨false, true⟩ : SendErr).is_timeout = false →
      fetch_artifacts (some 3) (Except.error ⟨false, true⟩)
        = Except.error StateError.Cancelled)
    ∧ fetch_artifacts (some 3) (Except.ok none) = Except.error StateError.Retry
    ∧ ((⟨3, []⟩ : Artifacts).total_count = 0 →
      fetch_artifacts (some 3) (Except.ok (some ⟨3, []⟩))
        = Except.error StateError.Cancelled)
    ∧ ((⟨3, []⟩ : Artifacts).total_count ≠ 0 →
      fetch_artifacts none (Except.ok (some ⟨3, []⟩))
        = Except.ok (⟨3, []⟩ : Artifacts).artifacts)
    ∧ ((⟨3, []⟩ : Artifacts).total_count ≠ 0 →
        (⟨3, []⟩ : Artifacts).total_count = 3 →
      fetch_artifacts (some 3) (Except.ok (some ⟨3, []⟩))
        = Except.ok (⟨3, []⟩ : Artifacts).artifacts)
    ∧ ((⟨3, []⟩ : Artifacts).total_count ≠ 0 →
        (⟨3, []⟩ : Artifacts).total_count ≠ 3 →
      fetch_artifacts (some 3) (Except.ok (some ⟨3, []⟩))
        = Except.error StateError.Cancelled) :=
  fetch_artifacts_outcome_mapping (some 3) 3 ⟨false, true⟩ ⟨3, []⟩

/-- C10: on a digest mismatch, `download_and_extract_archive` does
verify the digest (the computed hash differs from the declared digest
minus its 7-character scheme prefix, and `extract` classifies this as
`HashUnmatch`, first and fourth conjuncts) and does clean up the
partially written output (`cleanup` invokes `remove_dir_all`, second
conjunct) — but it then returns `State::Success(())` anyway (third
conjunct), reporting success for a download it just judged broken and
deleted.  This contradicts the function's own error handling (it logs
"failed to extract …: broken artifact" on this very path) and the
specified non-retryable-failure treatment. -/
theorem digest_mismatch_still_reports_success :
    extract true (some "sha256:aaaa") "bbbb" = Case.HashUnmatch
    ∧ cleanup Case.HashUnmatch = true
    ∧ download_and_extract_archive (State.Success ()) true
        (some "sha256:aaaa") "bbbb" = (State.Success (), true)
    ∧ "bbbb" ≠ String.drop "sha256:aaaa" 7 := by
  refine ⟨by decide, rfl, by decide, by decide⟩

end ApiFramework
